import Mathlib

/-!
Verification of the Samyama banking data-generation pipeline
(`docs/banking/generators/`: `branches.py`, `customers.py`, `accounts.py`,
`transactions.py`, `relationships.py`, `generate_all.py`).

The Python code is shallowly embedded: every random draw becomes an explicit
parameter (constrained by hypotheses to the range the `random` call can
return), the process clock becomes an explicit parameter `t` counting seconds
(calendar dates are day serials `t / 86400`), money amounts are rationals,
and `round(x, 2)` becomes `round2`.  Record dictionaries become structures
holding the fields the verified properties speak about.
-/

namespace Banking

/-- `round(x, 2)` from Python: rounding a value to cents.  (Python uses
banker's rounding on floats; no verified property depends on tie-breaking,
and every bound used below has cent-multiple endpoints, for which any
monotone cent-rounding agrees.) -/
def round2 (q : ℚ) : ℚ := (round (q * 100) : ℤ) / 100

/-- `round(x, 4)` from Python, used for interest rates. -/
def round4 (q : ℚ) : ℚ := (round (q * 10000) : ℤ) / 10000

/-- Zero-padded decimal rendering, as in Python `f"{n:08d}"`. -/
def zeroPad (width n : ℕ) : String :=
  let s := toString n
  String.mk (List.replicate (width - s.length) '0') ++ s

end Banking

namespace Banking.Customers

/-!
Embedding of `customers.py`.  One customer record keeps the fields the
verified claims mention (identifier, type, KYC status, risk score,
membership/birth dates as day serials, segments, status, HNW extras).
Identity and contact fields (names, address, SSN, e-mail, phone) are pure
functions of further draws and play no role in any verified property.
-/

structure Customer where
  customer_id : String
  customer_type : String
  date_of_birth : ℕ
  kyc_status : String
  risk_score : ℤ
  member_since : ℕ
  segments : List String
  status : String
  net_worth_tier : String := ""
  relationship_manager : String := ""
  deriving Repr, DecidableEq

/-- `calculate_risk_score` from `customers.py`: base 30, adjusted by customer
type, KYC status and account age, plus noise, clamped to `[1, 100]`.  Each
`random.randint` becomes one of the draw parameters `dType dKyc dAge dNoise`
(range hypotheses are imposed where a theorem needs them). -/
def calculate_risk_score (customer_type kyc_status : String)
    (account_age_days : ℕ) (dType dKyc dAge dNoise : ℤ) : ℤ :=
  let s : ℤ := 30
  let s := if customer_type = "Individual" then s + dType
    else if customer_type = "Corporate" then s + dType
    else if customer_type = "HighNetWorth" then s + dType
    else s
  let s := if kyc_status = "Verified" then s - dKyc
    else if kyc_status = "Pending" then s + dKyc
    else if kyc_status = "PendingReview" then s + dKyc
    else if kyc_status = "Rejected" then s + dKyc
    else s
  let s := if account_age_days < 90 then s + dAge
    else if account_age_days < 365 then s + dAge
    else if account_age_days > 1825 then s - dAge
    else s
  let s := s + dNoise
  max 1 (min 100 s)

/-- KYC statuses drawable for an individual customer
(`{"Verified": 0.85, "Pending": 0.08, "PendingReview": 0.05, "Rejected": 0.02}`). -/
def kycChoicesIndividual : List String :=
  ["Verified", "Pending", "PendingReview", "Rejected"]

/-- KYC statuses drawable for a corporate customer. -/
def kycChoicesCorporate : List String :=
  ["Verified", "Pending", "PendingReview", "Rejected"]

/-- KYC statuses drawable in the HNW override
(`{"Verified": 0.95, "Pending": 0.03, "PendingReview": 0.02}` — no `Rejected`). -/
def kycChoicesHnw : List String := ["Verified", "Pending", "PendingReview"]

/-- The random draws consumed by `generate_individual_customer`. -/
structure IndDraws where
  ageYears : ℕ
  dobOffset : ℕ
  memberDaysAgo : ℕ
  kyc : String
  segPremium : ℚ
  segHighRisk : ℚ
  dType : ℤ
  dKyc : ℤ
  dAge : ℤ
  dNoise : ℤ
  deriving Repr

/-- `generate_individual_customer` from `customers.py`, at clock `t` (seconds):
`member_since` is `days_ago` days before today, `account_age_days` is that
same day count, KYC is drawn, risk comes from `calculate_risk_score`, the
segment list accumulates `Premium` / `HighRisk` / `LongTerm`, and
`status` is `"Active" if kyc_status != "Rejected" else "Suspended"`. -/
def generate_individual_customer (t : ℕ) (customer_id : ℕ) (d : IndDraws) :
    Customer :=
  let today := t / 86400
  let member_since := today - d.memberDaysAgo
  let account_age_days := d.memberDaysAgo
  let segments := ["Individual"]
    ++ (if d.segPremium < 15/100 then ["Premium"] else [])
    ++ (if d.segHighRisk < 5/100 then ["HighRisk"] else [])
    ++ (if account_age_days > 3650 then ["LongTerm"] else [])
  { customer_id := "CUST-" ++ zeroPad 8 customer_id
    customer_type := "Individual"
    date_of_birth := today - (d.ageYears * 365 + d.dobOffset)
    kyc_status := d.kyc
    risk_score := calculate_risk_score "Individual" d.kyc account_age_days
      d.dType d.dKyc d.dAge d.dNoise
    member_since := member_since
    segments := segments
    status := if d.kyc ≠ "Rejected" then "Active" else "Suspended" }

/-- The random draws consumed by `generate_corporate_customer`
(only those feeding the verified fields). -/
structure CorpDraws where
  memberDaysAgo : ℕ
  kyc : String
  dType : ℤ
  dKyc : ℤ
  dAge : ℤ
  dNoise : ℤ
  deriving Repr

/-- `generate_corporate_customer` from `customers.py`, restricted to the
fields of the `Customer` structure: KYC drawn from the corporate weights,
risk from the same additive heuristic, and the same status formula
`"Active" if kyc_status != "Rejected" else "Suspended"`. -/
def generate_corporate_customer (t : ℕ) (customer_id : ℕ) (d : CorpDraws) :
    Customer :=
  let today := t / 86400
  let member_since := today - d.memberDaysAgo
  let account_age_days := d.memberDaysAgo
  { customer_id := "CORP-" ++ zeroPad 8 customer_id
    customer_type := "Corporate"
    date_of_birth := 0
    kyc_status := d.kyc
    risk_score := calculate_risk_score "Corporate" d.kyc account_age_days
      d.dType d.dKyc d.dAge d.dNoise
    member_since := member_since
    segments := ["Corporate"]
    status := if d.kyc ≠ "Rejected" then "Active" else "Suspended" }

/-- The extra draws consumed by the HNW override in `generate_hnw_customer`. -/
structure HnwDraws where
  kyc : String
  risk : ℤ
  segWealth : ℚ
  tierIdx : ℕ
  rmNum : ℕ
  deriving Repr

/-- `generate_hnw_customer` from `customers.py`: first produces an
individual customer, then overrides identifier, type, KYC status, risk
score, segments and the HNW-specific fields.  Note that `status` is **not**
recomputed after the KYC override. -/
def generate_hnw_customer (t : ℕ) (customer_id : ℕ) (d : IndDraws)
    (h : HnwDraws) : Customer :=
  let c := generate_individual_customer t customer_id d
  let segments := ["Individual", "HighNetWorth", "Premium", "PrivateBanking"]
    ++ (if h.segWealth < 3/10 then ["WealthManagement"] else [])
  { c with
    customer_id := "HNW-" ++ zeroPad 8 customer_id
    customer_type := "HighNetWorth"
    kyc_status := h.kyc
    risk_score := h.risk
    segments := segments
    net_worth_tier :=
      (["Tier1_1M_5M", "Tier2_5M_25M", "Tier3_25M_Plus"].getD (h.tierIdx % 3) "")
    relationship_manager := "RM-" ++ toString h.rmNum }

end Banking.Customers

namespace Banking.Accounts

/-!
Embedding of `accounts.py`: the `ACCOUNT_TYPES` configuration table,
`generate_balance`, `generate_interest_rate`, `calculate_monthly_payment`
and the loan-specific field block of `generate_account`.
-/

/-- One entry of the `ACCOUNT_TYPES` table (the fields the verified
properties use: balance range, credit limits, loan terms, rate range). -/
structure ATConfig where
  min_balance : ℚ
  max_balance : ℚ
  credit_limit : List ℚ := [5000]
  terms_months : List ℕ := [12]
  interest_rate_lo : ℚ := 0
  interest_rate_hi : ℚ := 1/20
  deriving Repr

/-- `ACCOUNT_TYPES` from `accounts.py` as a lookup on the type name. -/
def ACCOUNT_TYPES : String → ATConfig
  | "Checking" => { min_balance := 0
                    max_balance := 50000
                    interest_rate_lo := 0
                    interest_rate_hi := 1/100 }
  | "Savings" => { min_balance := 0
                   max_balance := 250000
                   interest_rate_lo := 1/100
                   interest_rate_hi := 5/100 }
  | "CD" => { min_balance := 1000
              max_balance := 500000
              terms_months := [6, 12, 24, 36, 60]
              interest_rate_lo := 3/100
              interest_rate_hi := 55/1000 }
  | "CreditCard" => { min_balance := -50000
                      max_balance := 0
                      credit_limit := [1000, 5000, 10000, 25000, 50000, 100000]
                      interest_rate_lo := 15/100
                      interest_rate_hi := 27/100 }
  | "Mortgage" => { min_balance := 50000
                    max_balance := 2000000
                    interest_rate_lo := 55/1000
                    interest_rate_hi := 8/100 }
  | "AutoLoan" => { min_balance := 5000
                    max_balance := 100000
                    terms_months := [36, 48, 60, 72, 84]
                    interest_rate_lo := 45/1000
                    interest_rate_hi := 12/100 }
  | "PersonalLoan" => { min_balance := 1000
                        max_balance := 50000
                        terms_months := [12, 24, 36, 48, 60]
                        interest_rate_lo := 6/100
                        interest_rate_hi := 25/100 }
  | "Investment" => { min_balance := 0
                      max_balance := 5000000
                      interest_rate_lo := 0
                      interest_rate_hi := 0 }
  | _ => { min_balance := 0
           max_balance := 100000 }

/-- The random draws `generate_balance` can consume (one field per
`random.*` call site; only the fields of the taken branch matter). -/
structure BalanceDraws where
  ccPayoff : ℚ := 1
  ccLimitIdx : ℕ := 0
  ccUtilization : ℚ := 1/10
  loanOriginal : ℚ := 0
  loanRemainPct : ℚ := 1/5
  cdIdx : ℕ := 0
  invD1 : ℚ := 1
  invD2 : ℚ := 1
  invU1 : ℚ := 0
  invU2 : ℚ := 10000
  invU3 : ℚ := 100000
  lognorm : ℚ := 1
  deriving Repr

/-- Validity of the draws for `generate_balance` relative to the account
type and its config: each draw lies in the range of the corresponding
`random` call of the branch that consumes it.  The principal draw
`uniform(min_balance, max_balance)` happens only in the loan branch and the
top-tier draw `uniform(100000, max_balance)` only in the Investment branch,
so those config-relative constraints apply only for those types; the
remaining calls have type-independent ranges. -/
def BalanceDraws.Valid (account_type : String) (cfg : ATConfig)
    (d : BalanceDraws) : Prop :=
  0 ≤ d.ccPayoff ∧ d.ccPayoff ≤ 1 ∧
  1/10 ≤ d.ccUtilization ∧ d.ccUtilization ≤ 7/10 ∧
  (account_type = "Mortgage" ∨ account_type = "AutoLoan" ∨
      account_type = "PersonalLoan" →
    cfg.min_balance ≤ d.loanOriginal ∧ d.loanOriginal ≤ cfg.max_balance) ∧
  1/5 ≤ d.loanRemainPct ∧ d.loanRemainPct ≤ 19/20 ∧
  0 ≤ d.invD1 ∧ d.invD1 ≤ 1 ∧ 0 ≤ d.invD2 ∧ d.invD2 ≤ 1 ∧
  0 ≤ d.invU1 ∧ d.invU1 ≤ 10000 ∧
  10000 ≤ d.invU2 ∧ d.invU2 ≤ 100000 ∧
  (account_type = "Investment" →
    100000 ≤ d.invU3 ∧ d.invU3 ≤ cfg.max_balance)

instance (account_type : String) (cfg : ATConfig) (d : BalanceDraws) :
    Decidable (BalanceDraws.Valid account_type cfg d) := by
  unfold BalanceDraws.Valid; infer_instance

/-- The round CD denominations of `generate_balance`. -/
def cdBaseAmounts : List ℚ := [1000, 5000, 10000, 25000, 50000, 100000, 250000]

/-- `generate_balance` from `accounts.py`: credit-card utilization model
(30% chance of a zero balance), loan remaining-balance model, CD round
denominations filtered to the configured range, tiered investment
distribution, log-normal checking/savings clamped to the range. -/
def generate_balance (account_type : String) (cfg : ATConfig)
    (d : BalanceDraws) : ℚ :=
  let min_bal := cfg.min_balance
  let max_bal := cfg.max_balance
  if account_type = "CreditCard" then
    if d.ccPayoff < 3/10 then 0
    else
      let credit_limit := cfg.credit_limit.getD (d.ccLimitIdx % cfg.credit_limit.length) 5000
      round2 (-credit_limit * d.ccUtilization)
  else if account_type = "Mortgage" ∨ account_type = "AutoLoan" ∨
      account_type = "PersonalLoan" then
    round2 (d.loanOriginal * d.loanRemainPct)
  else if account_type = "CD" then
    let eligible := cdBaseAmounts.filter (fun b => min_bal ≤ b ∧ b ≤ max_bal)
    eligible.getD (d.cdIdx % eligible.length) 0
  else if account_type = "Investment" then
    if d.invD1 < 3/10 then round2 d.invU1
    else if d.invD2 < 6/10 then round2 d.invU2
    else round2 d.invU3
  else
    round2 (min (max d.lognorm min_bal) max_bal)

/-- The random draws `generate_interest_rate` can consume. -/
structure RateDraws where
  base : ℚ := 0
  hy : ℚ := 4/100
  mm : ℚ := 3/100
  reg : ℚ := 1/1000
  ccSecured : ℚ := 18/100
  ccPremium : ℚ := 15/100
  deriving Repr

/-- CD term bonus table from `generate_interest_rate`. -/
def cdTermBonus (subtype : String) : ℚ :=
  if subtype = "6-Month CD" then 0
  else if subtype = "12-Month CD" then 5/1000
  else if subtype = "24-Month CD" then 1/100
  else if subtype = "60-Month CD" then 15/1000
  else 0

/-- Python's `needle in haystack` substring test on strings. -/
def strContains (needle haystack : String) : Bool :=
  decide (needle.toList <:+: haystack.toList)

/-- `generate_interest_rate` from `accounts.py`.  Substring tests such as
`"High-Yield" in subtype` are embedded through `strContains`. -/
def generate_interest_rate (account_type : String) (cfg : ATConfig)
    (subtype : String) (d : RateDraws) : ℚ :=
  if account_type = "CD" then
    round4 (d.base + cdTermBonus subtype)
  else if account_type = "Savings" then
    if strContains "High-Yield" subtype then round4 d.hy
    else if strContains "Money Market" subtype then round4 d.mm
    else round4 d.reg
  else if account_type = "CreditCard" then
    if strContains "Secured" subtype then round4 d.ccSecured
    else if strContains "Premium" subtype then round4 d.ccPremium
    else round4 d.base
  else
    round4 d.base

/-- `calculate_monthly_payment` from `accounts.py`: straight-line fallback
when the rate or the term is zero, otherwise the fixed-payment annuity
formula, rounded to cents. -/
def calculate_monthly_payment (principal annual_rate : ℚ)
    (term_months : ℕ) : ℚ :=
  if annual_rate = 0 ∨ term_months = 0 then
    round2 (principal / (max term_months 1 : ℕ))
  else
    let monthly_rate := annual_rate / 12
    round2 (principal * (monthly_rate * (1 + monthly_rate) ^ term_months) /
      ((1 + monthly_rate) ^ term_months - 1))

/-- The draws of the loan-specific block of `generate_account`. -/
structure LoanDraws where
  termIdx : ℕ := 0
  origPct : ℚ := 1/2
  deriving Repr

/-- The loan-specific field block of `generate_account`
(`account_type in ["Mortgage", "AutoLoan", "PersonalLoan"]`): term choice,
original balance reconstructed from the remaining balance, and the stored
`monthly_payment`.  Returns `(original_balance, term_months, monthly_payment)`
exactly as the account dictionary stores them (the payment is computed on
the unrounded original balance, the stored original balance is rounded). -/
def generate_loan_fields (account_type : String) (cfg : ATConfig)
    (balance interest_rate : ℚ) (d : LoanDraws) : ℚ × ℕ × ℚ :=
  let term_months :=
    if account_type = "Mortgage" then [180, 360].getD (d.termIdx % 2) 360
    else cfg.terms_months.getD (d.termIdx % cfg.terms_months.length) 60
  let original_balance := balance / d.origPct
  (round2 original_balance, term_months,
    calculate_monthly_payment original_balance interest_rate term_months)

end Banking.Accounts

namespace Banking.Transactions

/-!
Embedding of `transactions.py`: the per-transaction risk scoring
(`calculate_risk_score`), the timestamp generator, `generate_transaction`
(restricted to the fields the verified claims mention), `load_accounts`
and the `generate_transactions` driver with its placeholder fallback.
-/

/-- The amount-based step of `calculate_risk_score`
(lines 281-287 of `transactions.py`): an `if amount > 5000` branch followed
by an `elif amount > 10000` branch.  Returns the score increment and the
flags appended by this step. -/
def amountRiskStep (amount : ℚ) : ℤ × List String :=
  if amount > 5000 then (20, ["High_Amount"])
  else if amount > 10000 then (40, ["Very_High_Amount"])
  else (0, [])

/-- `calculate_risk_score` from `transactions.py`: additive rule over
amount band, off-hours, type-specific bonuses, international flag and two
independent low-probability surprise bonuses, clamped by `min(100, ·)`.
The two `random.random()` comparisons become the booleans
`velocity` and `suspicious`. -/
def calculate_risk_score (amount : ℚ) (tx_type : String) (hour : ℕ)
    (is_international velocity suspicious : Bool) : ℤ × List String :=
  let s : ℤ := 0
  let f : List String := []
  let (s, f) := match amountRiskStep amount with
    | (ds, df) => (s + ds, f ++ df)
  let (s, f) := if hour < 6 ∨ hour > 23 then (s + 15, f ++ ["Unusual_Time"])
    else (s, f)
  let s := if tx_type = "Transfer" ∧ amount > 5000 then s + 10 else s
  let s := if tx_type = "Withdrawal" ∧ amount > 3000 then s + 10 else s
  let (s, f) := if is_international then (s + 25, f ++ ["International"])
    else (s, f)
  let (s, f) := if velocity then (s + 30, f ++ ["Velocity_Spike"]) else (s, f)
  let (s, f) := if suspicious then (s + 40, f ++ ["Suspicious_Pattern"])
    else (s, f)
  (min 100 s, f)

/-- `generate_transaction_datetime` from `transactions.py`: a day drawn
within the history window and a drawn time of day; the date is the current
calendar day minus `days_ago`, the time is the drawn hour/minute/second
(the clock's own time of day is discarded by the `replace`/`strftime`).
Returns `(day serial, (hour, minute, second))`. -/
def generate_transaction_datetime (t : ℕ) (daysAgo hour minute second : ℕ) :
    ℕ × (ℕ × ℕ × ℕ) :=
  (t / 86400 - daysAgo, (hour, minute, second))

/-- One transaction record, restricted to the fields the verified claims
mention.  `risk_flags` keeps the flag list (the file serializes it joined
with `"|"`). -/
structure Txn where
  transaction_id : String
  account_id : String
  transaction_type : String
  transaction_subtype : String
  amount : ℚ
  transaction_date : ℕ
  hour : ℕ
  minute : ℕ
  second : ℕ
  status : String
  is_international : Bool
  risk_score : ℤ
  risk_flags : List String
  is_flagged : String
  deriving Repr, DecidableEq

/-- The random draws consumed by one `generate_transaction` call.  The
drawn transaction type and status are carried directly (the weighted-choice
tables fix which values are drawable); the amount is the value produced by
`generate_amount` for the drawn type (its internal distribution draws play
no role in any verified property, which hold for every rational amount). -/
structure TxnDraws where
  tx_type : String := "Purchase"
  subtype : String := "POS Debit"
  daysAgo : ℕ := 0
  hour : ℕ := 12
  minute : ℕ := 0
  second : ℕ := 0
  amount : ℚ := 50
  is_international : Bool := false
  velocity : Bool := false
  suspicious : Bool := false
  status : String := "Completed"
  deriving Repr

/-- `generate_transaction` from `transactions.py`: fixes the identifier
from the running counter, stamps the account, draws type/subtype/timestamp/
amount/status, scores the risk and derives `is_flagged` from
`risk_score > 50`. -/
def generate_transaction (t : ℕ) (tx_id : ℕ) (account_id : String)
    (d : TxnDraws) : Txn :=
  let (date, (hour, minute, second)) :=
    generate_transaction_datetime t d.daysAgo d.hour d.minute d.second
  let (risk_score, risk_flags) := calculate_risk_score d.amount d.tx_type
    hour d.is_international d.velocity d.suspicious
  { transaction_id := "TXN-" ++ zeroPad 12 tx_id
    account_id := account_id
    transaction_type := d.tx_type
    transaction_subtype := d.subtype
    amount := d.amount
    transaction_date := date
    hour := hour
    minute := minute
    second := second
    status := d.status
    is_international := d.is_international
    risk_score := risk_score
    risk_flags := risk_flags
    is_flagged := if risk_score > 50 then "Y" else "N" }

/-- One row of `accounts.tsv` as `load_accounts` reads it. -/
structure AccountRow where
  account_id : String
  account_type : String
  status : String
  deriving Repr, DecidableEq

/-- `load_accounts` from `transactions.py`: keeps only the rows with
`status == "Active"`, projected to `(account_id, account_type)`. -/
def load_accounts (rows : List AccountRow) : List (String × String) :=
  (rows.filter (fun r => r.status = "Active")).map
    (fun r => (r.account_id, r.account_type))

/-- The placeholder account list substituted when no accounts were loaded
(`[{"account_id": f"ACC-{i:010d}", "account_type": "Checking"}
for i in range(1, 101)]`). -/
def placeholderAccounts : List (String × String) :=
  (List.range 100).map (fun i => ("ACC-" ++ zeroPad 10 (i + 1), "Checking"))

/-- Per-account generation inside `generate_transactions`: `numTx i` is the
(already truncated) Gaussian draw for the `i`-th account, floored at 1;
`draws j` is the draw bundle of the `j`-th transaction overall.  Produces
the transactions of the accounts from index `i` onwards, with `tx_id`
continuing the running counter. -/
def generateForAccounts (t : ℕ) (numTx : ℕ → ℤ) (draws : ℕ → TxnDraws) :
    List (String × String) → ℕ → ℕ → List Txn
  | [], _, _ => []
  | acc :: rest, i, tx_id =>
    let n := max 1 (numTx i) |>.toNat
    let txs := (List.range n).map
      (fun j => generate_transaction t (tx_id + j) acc.1 (draws (tx_id + j)))
    txs ++ generateForAccounts t numTx draws rest (i + 1) (tx_id + n)

/-- The sort key of `transactions.sort(key=lambda x: (x["transaction_date"],
x["transaction_time"]))`: lexicographic on date then time of day. -/
def txnLe (a b : Txn) : Bool :=
  a.transaction_date < b.transaction_date ||
    (a.transaction_date == b.transaction_date &&
      (a.hour < b.hour || (a.hour == b.hour &&
        (a.minute < b.minute || (a.minute == b.minute &&
          a.second ≤ b.second)))))

/-- `generate_transactions` from `transactions.py`: loads the Active
accounts, substitutes the placeholder list when none were found, generates
per-account transaction batches, and finally sorts by `(date, time)`. -/
def generate_transactions (t : ℕ) (rows : List AccountRow)
    (numTx : ℕ → ℤ) (draws : ℕ → TxnDraws) : List Txn :=
  let accounts := load_accounts rows
  let accounts := if accounts = [] then placeholderAccounts else accounts
  let txs := generateForAccounts t numTx draws accounts 0 1
  txs.mergeSort txnLe

end Banking.Transactions

namespace Banking.Branches

/-!
Embedding of `branches.py`: the city table with weights and the branch
allocation loop of `generate_branches`.  The city-to-count allocation is
fully deterministic (only the per-branch attributes draw randomness), so it
is embedded as a pure function of the target count.
-/

/-- One entry of `US_BANKING_LOCATIONS` (city name, tier and weight). -/
structure Location where
  city : String
  tier : ℕ
  weight : ℕ
  deriving Repr, DecidableEq

/-- `US_BANKING_LOCATIONS` from `branches.py` (city, tier, weight). -/
def US_BANKING_LOCATIONS : List Location :=
  [⟨"New York", 1, 15⟩, ⟨"Los Angeles", 1, 12⟩, ⟨"Chicago", 1, 10⟩,
   ⟨"Houston", 1, 8⟩, ⟨"San Francisco", 1, 8⟩, ⟨"Boston", 1, 7⟩,
   ⟨"Dallas", 1, 7⟩, ⟨"Miami", 1, 6⟩, ⟨"Atlanta", 1, 6⟩, ⟨"Seattle", 1, 5⟩,
   ⟨"Phoenix", 2, 4⟩, ⟨"Philadelphia", 2, 4⟩, ⟨"San Diego", 2, 3⟩,
   ⟨"Denver", 2, 4⟩, ⟨"Austin", 2, 4⟩, ⟨"Charlotte", 2, 5⟩,
   ⟨"Minneapolis", 2, 3⟩, ⟨"Portland", 2, 3⟩, ⟨"Detroit", 2, 3⟩,
   ⟨"Nashville", 2, 3⟩,
   ⟨"San Jose", 3, 3⟩, ⟨"Columbus", 3, 2⟩, ⟨"Indianapolis", 3, 2⟩,
   ⟨"Jacksonville", 3, 2⟩, ⟨"San Antonio", 3, 2⟩, ⟨"Fort Worth", 3, 2⟩,
   ⟨"Baltimore", 3, 2⟩, ⟨"Salt Lake City", 3, 2⟩, ⟨"Kansas City", 3, 2⟩,
   ⟨"Las Vegas", 3, 2⟩, ⟨"Milwaukee", 3, 2⟩, ⟨"Cleveland", 3, 2⟩,
   ⟨"Tampa", 3, 2⟩, ⟨"Raleigh", 3, 2⟩, ⟨"Pittsburgh", 3, 2⟩,
   ⟨"Cincinnati", 4, 1⟩, ⟨"St. Louis", 4, 1⟩, ⟨"Orlando", 4, 1⟩,
   ⟨"Sacramento", 4, 1⟩, ⟨"New Orleans", 4, 1⟩, ⟨"Tucson", 4, 1⟩,
   ⟨"Honolulu", 4, 1⟩, ⟨"Albuquerque", 4, 1⟩, ⟨"Omaha", 4, 1⟩]

/-- `total_weight = sum(loc["weight"] ...)` from `generate_branches`. -/
def totalWeight : ℕ := (US_BANKING_LOCATIONS.map Location.weight).sum

/-- The first-pass allocation of `generate_branches`:
`count = max(1, int(num_branches * loc["weight"] / total_weight))` per city,
in table order.  (`int(...)` truncates, which on these non-negative values
is natural-number division.) -/
def branchesPerLocation (num_branches : ℕ) : List (Location × ℕ) :=
  US_BANKING_LOCATIONS.map
    (fun loc => (loc, max 1 (num_branches * loc.weight / totalWeight)))

/-- The generation loop of `generate_branches` projected to how many
branches each city actually receives: cities are served in table order
with their first-pass count, but the loop breaks as soon as the running
branch counter exceeds `num_branches`. -/
def allocateCounts (remaining : ℕ) : List (Location × ℕ) → List (Location × ℕ)
  | [] => []
  | (loc, count) :: rest =>
    let taken := min count remaining
    (loc, taken) :: allocateCounts (remaining - taken) rest

/-- Branch counts per city for a run targeting `num_branches` branches. -/
def cityBranchCounts (num_branches : ℕ) : List (Location × ℕ) :=
  allocateCounts num_branches (branchesPerLocation num_branches)

/-- The total of the first-pass counts of every city but the last: when
this is below `num_branches`, the generation loop reaches the last city. -/
def prefixAllocation (num_branches : ℕ) : ℕ :=
  ((branchesPerLocation num_branches).dropLast.map Prod.snd).sum

end Banking.Branches

namespace Banking.Relationships

/-!
Embedding of `relationships.py`: the TRANSFER_TO inference
(`generate_transfer_relationships`) and the file-writing policy of
`generate_all_relationships`.
-/

/-- One row of `transactions.tsv` as the transfer inference reads it. -/
structure TxRow where
  account_id : String
  transaction_type : String
  status : String
  amount : ℚ
  transaction_date : String
  deriving Repr, DecidableEq

/-- The per-pair accumulator of the transfer scan (`transfer_stats`
values): count, total amount, first and last date (`None` initially). -/
structure TStats where
  count : ℕ
  total_amount : ℚ
  first_date : Option String
  last_date : Option String
  deriving Repr, DecidableEq

/-- The `defaultdict` default for a freshly touched pair. -/
def TStats.empty : TStats := ⟨0, 0, none, none⟩

/-- Folding one sampled transaction into a pair's accumulator:
increment the count, add the amount, update first/last date. -/
def TStats.add (amount : ℚ) (date : String) (s : TStats) : TStats :=
  { count := s.count + 1
    total_amount := s.total_amount + amount
    first_date := match s.first_date with
      | none => some date
      | some f => if date < f then some date else some f
    last_date := match s.last_date with
      | none => some date
      | some l => if date > l then some date else some l }

/-- `transfer_stats[key]` access followed by mutation: update the entry in
place when the key is present, otherwise append a fresh entry (Python dicts
preserve insertion order). -/
def updateStats (key : String × String) (amount : ℚ) (date : String) :
    List ((String × String) × TStats) → List ((String × String) × TStats)
  | [] => [(key, TStats.empty.add amount date)]
  | (k, s) :: rest =>
    if k = key then (k, s.add amount date) :: rest
    else (k, s) :: updateStats key amount date rest

/-- The scan loop of `generate_transfer_relationships`: for each completed
Transfer transaction whose account is known, the 10% draw decides whether a
uniformly chosen different account becomes the inferred target.  The random
pair `(r, pick)` for a transaction is consumed exactly when the transaction
is eligible and a different account exists (`if potential_targets and
random.random() < 0.1`). -/
def transferScan (validAccounts : List String) :
    List TxRow → List (ℚ × ℕ) → List ((String × String) × TStats) →
    List ((String × String) × TStats)
  | [], _, stats => stats
  | tx :: rest, oracle, stats =>
    if tx.transaction_type = "Transfer" ∧ tx.status = "Completed" ∧
        tx.account_id ∈ validAccounts then
      let potential_targets := validAccounts.filter (· ≠ tx.account_id)
      if potential_targets = [] then transferScan validAccounts rest oracle stats
      else
        match oracle with
        | [] => transferScan validAccounts rest [] stats
        | (r, pick) :: oracle' =>
          if r < 1/10 then
            let target := potential_targets.getD
              (pick % potential_targets.length) ""
            transferScan validAccounts rest oracle'
              (updateStats (tx.account_id, target) tx.amount
                tx.transaction_date stats)
          else transferScan validAccounts rest oracle' stats
    else transferScan validAccounts rest oracle stats

/-- One TRANSFER_TO edge as emitted by `generate_transfer_relationships`. -/
structure TransferRel where
  relationship_id : String
  source_id : String
  target_id : String
  frequency : ℕ
  total_amount : ℚ
  first_transfer_date : Option String
  last_transfer_date : Option String
  deriving Repr, DecidableEq

/-- `generate_transfer_relationships` from `relationships.py`: scan the
transactions, then emit one edge per accumulated pair with `count >= 2`,
carrying the count as `frequency`, the cent-rounded running total and the
first/last dates. -/
def generate_transfer_relationships (txs : List TxRow)
    (accounts : List String) (oracle : List (ℚ × ℕ)) : List TransferRel :=
  let stats := transferScan accounts txs oracle []
  let qualifying := stats.filter (fun p => 2 ≤ p.2.count)
  qualifying.enum.map (fun (i, (key, s)) =>
    { relationship_id := "REL-TRF-" ++ zeroPad 8 (i + 1)
      source_id := key.1
      target_id := key.2
      frequency := s.count
      total_amount := round2 s.total_amount
      first_transfer_date := s.first_date
      last_transfer_date := s.last_date })

/-- The relationship category names in the insertion order of
`all_relationships` together with the file each category is written to
(`file_name_map` in `generate_all_relationships`). -/
def relationshipFileNames : List (String × String) :=
  [("owns", "owns_account.tsv"), ("banks_at", "banks_at.tsv"),
   ("transfers", "transfer_to.tsv"), ("social", "knows.tsv"),
   ("employment", "employed_by.tsv"),
   ("authorized_users", "authorized_user.tsv")]

/-- The file-writing policy of `generate_all_relationships`, projected to
which files get created: each category's file is written under
`if rels:` — only when the category is non-empty — and the combined
`relationships_all.tsv` is written under `if all_rels:`.  The argument
lists the six category sizes in insertion order. -/
def writtenRelationshipFiles (sizes : List ℕ) : List String :=
  ((relationshipFileNames.zip sizes).filter (fun p => p.2 ≠ 0)).map
      (fun p => p.1.2) ++
    (if sizes.sum ≠ 0 then ["relationships_all.tsv"] else [])

end Banking.Relationships

namespace Banking

/-!
Remaining definitions: the spec-worded annuity formula (for the refinement
comparison of the loan payment), the eligibility predicate of the transfer
scan, and the concrete inputs at which counterexamples and witnesses are
evaluated.
-/

/-- The monthly payment as the specification words it: the fixed-payment
annuity formula `P·r·(1+r)^n / ((1+r)^n − 1)` with `r = annual_rate/12`
and `n = term_months`. -/
def annuity_payment_spec (P annual_rate : ℚ) (term_months : ℕ) : ℚ :=
  let r := annual_rate / 12
  P * r * (1 + r) ^ term_months / ((1 + r) ^ term_months - 1)

/-- The transactions the transfer scan reacts to: type `Transfer`, status
`Completed`, and an `account_id` among the known accounts. -/
def eligibleTransfer (validAccounts : List String)
    (tx : Relationships.TxRow) : Prop :=
  tx.transaction_type = "Transfer" ∧ tx.status = "Completed" ∧
    tx.account_id ∈ validAccounts

instance (va : List String) (tx : Relationships.TxRow) :
    Decidable (eligibleTransfer va tx) := by
  unfold eligibleTransfer; infer_instance

/-- Individual draws with a `Rejected` KYC (probability 0.02 under the
individual KYC weights). -/
def rejectedIndDraws : Customers.IndDraws :=
  { ageYears := 30, dobOffset := 10, memberDaysAgo := 400
    kyc := "Rejected", segPremium := 1, segHighRisk := 1
    dType := 0, dKyc := 40, dAge := 0, dNoise := 0 }

/-- Individual draws with a `Verified` KYC. -/
def verifiedIndDraws : Customers.IndDraws :=
  { rejectedIndDraws with kyc := "Verified", dKyc := 5 }

/-- HNW override draws with a `Verified` KYC (the HNW KYC table has no
`Rejected` entry). -/
def verifiedHnwDraws : Customers.HnwDraws :=
  { kyc := "Verified", risk := 20, segWealth := 1, tierIdx := 0
    rmNum := 1234 }

/-- Corporate draws with a `Verified` KYC. -/
def verifiedCorpDraws : Customers.CorpDraws :=
  { memberDaysAgo := 400, kyc := "Verified"
    dType := 0, dKyc := 5, dAge := 0, dNoise := 0 }

/-- Valid balance draws hitting the low end of the Mortgage remaining
balance: the original principal at the configured minimum of 50000 and a
remaining fraction of 0.2. -/
def lowMortgageDraws : Accounts.BalanceDraws :=
  { loanOriginal := 50000, loanRemainPct := 1/5 }

/-- Valid balance draws for a CD. -/
def cdWitnessDraws : Accounts.BalanceDraws :=
  { cdIdx := 2, loanOriginal := 1000 }

/-- Valid balance draws for a CreditCard carrying a balance: the payoff
draw misses the 30% branch, credit-limit index 1 (limit 5000) and
utilization 0.5. -/
def ccWitnessDraws : Accounts.BalanceDraws :=
  { ccPayoff := 1/2, ccLimitIdx := 1, ccUtilization := 1/2 }

/-- Rate draws for a Mortgage witness (uniform draw 0.06 within the
configured Mortgage range). -/
def mortgageRateDraws : Accounts.RateDraws := { base := 6/100 }

/-- Two completed transfers out of `ACC-A`, as in the edge-inference test
scenario of the specification. -/
def twoTransferTxs : List Relationships.TxRow :=
  [{ account_id := "ACC-A", transaction_type := "Transfer"
     status := "Completed", amount := 10050/100
     transaction_date := "2024-01-02" },
   { account_id := "ACC-A", transaction_type := "Transfer"
     status := "Completed", amount := 20025/100
     transaction_date := "2024-01-05" }]

/-- An oracle sampling both transfers (draws below 0.1) toward account
index 0 of the potential-target list. -/
def samplingOracle : List (ℚ × ℕ) := [(0, 0), (0, 0)]

/-- The TRANSFER_TO edge the two sampled transfers of `twoTransferTxs`
aggregate into. -/
def c4Edge : Relationships.TransferRel :=
  { relationship_id := "REL-TRF-" ++ zeroPad 8 1
    source_id := "ACC-A"
    target_id := "ACC-B"
    frequency := 2
    total_amount := round2 (0 + 10050/100 + 20025/100)
    first_transfer_date := some "2024-01-02"
    last_transfer_date := some "2024-01-05" }

/-- A single loaded account row whose status is `Dormant`. -/
def dormantRow : Transactions.AccountRow :=
  { account_id := "ACC-0000000001", account_type := "Checking"
    status := "Dormant" }

/-- A single loaded account row whose status is `Active`. -/
def activeRow : Transactions.AccountRow :=
  { account_id := "ACC-0000000001", account_type := "Checking"
    status := "Active" }

end Banking

namespace Banking

/-! ## Rounding lemmas -/

theorem round2_le_round2 {a b : ℚ} (h : a ≤ b) : round2 a ≤ round2 b := by
  unfold round2
  have h100 : a * 100 + 1/2 ≤ b * 100 + 1/2 := by nlinarith
  have hf := Int.floor_le_floor h100
  rw [round_eq, round_eq]
  have h2 : ((⌊a * 100 + 1/2⌋ : ℤ) : ℚ) ≤ ((⌊b * 100 + 1/2⌋ : ℤ) : ℚ) := by
    exact_mod_cast hf
  linarith

/-- `round2` fixes integer multiples of a cent. -/
theorem round2_cent (k : ℤ) : round2 ((k : ℚ) / 100) = (k : ℚ) / 100 := by
  unfold round2
  have : ((k : ℚ) / 100) * 100 = (k : ℚ) := by ring
  rw [this, round_intCast]

theorem round2_mem_Icc {a b x : ℚ} (ka kb : ℤ) (ha : a = (ka : ℚ) / 100)
    (hb : b = (kb : ℚ) / 100) (hxa : a ≤ x) (hxb : x ≤ b) :
    a ≤ round2 x ∧ round2 x ≤ b := by
  constructor
  · calc a = round2 a := by rw [ha, round2_cent]
    _ ≤ round2 x := round2_le_round2 hxa
  · calc round2 x ≤ round2 b := round2_le_round2 hxb
    _ = b := by rw [hb, round2_cent]

theorem round4_le_round4 {a b : ℚ} (h : a ≤ b) : round4 a ≤ round4 b := by
  unfold round4
  have h10000 : a * 10000 + 1/2 ≤ b * 10000 + 1/2 := by nlinarith
  have hf := Int.floor_le_floor h10000
  rw [round_eq, round_eq]
  have h2 : ((⌊a * 10000 + 1/2⌋ : ℤ) : ℚ) ≤ ((⌊b * 10000 + 1/2⌋ : ℤ) : ℚ) := by
    exact_mod_cast hf
  linarith

/-- `round4` fixes integer multiples of 1/10000. -/
theorem round4_tenthousandth (k : ℤ) :
    round4 ((k : ℚ) / 10000) = (k : ℚ) / 10000 := by
  unfold round4
  have : ((k : ℚ) / 10000) * 10000 = (k : ℚ) := by ring
  rw [this, round_intCast]

/-! ## C1: customer status versus KYC status -/

theorem status_formula_iff (k : String) :
    ((if k ≠ "Rejected" then "Active" else "Suspended") = "Suspended" ↔
      k = "Rejected") := by
  by_cases h : k = "Rejected" <;> simp [h]

/-- C1 (amended): for Individual and Corporate customers, `status` is
`Suspended` iff `kyc_status` is `Rejected` (and `Active` otherwise); for
HighNetWorth customers, `status` reflects the pre-override KYC draw of the
underlying individual record (`Suspended` iff that draw was `Rejected`),
while the final `kyc_status` is drawn from the override table and is never
`Rejected`. -/
theorem c1_status_reflects_kyc :
    (∀ t cid d,
      ((Customers.generate_individual_customer t cid d).status = "Suspended" ↔
        (Customers.generate_individual_customer t cid d).kyc_status = "Rejected")) ∧
    (∀ t cid d,
      ((Customers.generate_corporate_customer t cid d).status = "Suspended" ↔
        (Customers.generate_corporate_customer t cid d).kyc_status = "Rejected")) ∧
    (∀ t cid d h, h.kyc ∈ Customers.kycChoicesHnw →
      (((Customers.generate_hnw_customer t cid d h).status = "Suspended" ↔
          d.kyc = "Rejected") ∧
        (Customers.generate_hnw_customer t cid d h).kyc_status ≠ "Rejected")) := by
  refine ⟨fun t cid d => ?_, fun t cid d => ?_, fun t cid d h hmem => ⟨?_, ?_⟩⟩
  · simpa [Customers.generate_individual_customer] using
      status_formula_iff d.kyc
  · simpa [Customers.generate_corporate_customer] using
      status_formula_iff d.kyc
  · simpa [Customers.generate_hnw_customer,
      Customers.generate_individual_customer] using status_formula_iff d.kyc
  · simp only [Customers.generate_hnw_customer]
    simp only [Customers.kycChoicesHnw, List.mem_cons, List.mem_singleton,
      List.not_mem_nil, or_false] at hmem
    rcases hmem with h1 | h1 | h1 <;> simp [h1]

/-- C1 (counterexample): an HNW customer generated from an individual draw
with KYC `Rejected` and an override draw of `Verified` has status
`Suspended` while its `kyc_status` is not `Rejected` — the claimed
"Suspended iff Rejected" equivalence fails on it. -/
theorem c1_hnw_suspended_verified :
    verifiedHnwDraws.kyc ∈ Customers.kycChoicesHnw ∧
    ¬(((Customers.generate_hnw_customer 1700000000 1 rejectedIndDraws
          verifiedHnwDraws).status = "Suspended") ↔
      ((Customers.generate_hnw_customer 1700000000 1 rejectedIndDraws
          verifiedHnwDraws).kyc_status = "Rejected")) := by
  constructor
  · decide
  · decide

/-- Witness for `c1_status_reflects_kyc` at concrete inputs. -/
theorem c1_status_reflects_kyc_witness :
    ((Customers.generate_hnw_customer 1700000000 2 verifiedIndDraws
        verifiedHnwDraws).status = "Suspended" ↔
      verifiedIndDraws.kyc = "Rejected") ∧
    (Customers.generate_hnw_customer 1700000000 2 verifiedIndDraws
        verifiedHnwDraws).kyc_status ≠ "Rejected" :=
  c1_status_reflects_kyc.2.2 1700000000 2 verifiedIndDraws verifiedHnwDraws
    (by decide)

end Banking

namespace Banking

/-! ## C7 / C10: transaction risk scoring -/

theorem amountRiskStep_bounds (a : ℚ) :
    0 ≤ (Transactions.amountRiskStep a).1 ∧
      (Transactions.amountRiskStep a).1 ≤ 40 ∧
      "Very_High_Amount" ∉ (Transactions.amountRiskStep a).2 := by
  unfold Transactions.amountRiskStep
  split_ifs with h1 h2
  · simp
  · exfalso; linarith
  · simp

theorem calculate_risk_score_bounds (a : ℚ) (ty : String) (h : ℕ)
    (i v s : Bool) :
    0 ≤ (Transactions.calculate_risk_score a ty h i v s).1 ∧
      (Transactions.calculate_risk_score a ty h i v s).1 ≤ 100 ∧
      "Very_High_Amount" ∉ (Transactions.calculate_risk_score a ty h i v s).2 := by
  have hstep := amountRiskStep_bounds a
  unfold Transactions.calculate_risk_score
  rcases hs : Transactions.amountRiskStep a with ⟨ds, df⟩
  rw [hs] at hstep
  simp only at hstep ⊢
  split_ifs <;> refine ⟨by omega, by omega, ?_⟩ <;> simp_all

theorem generate_transaction_risk_fields (t tx_id : ℕ) (acc : String)
    (d : Transactions.TxnDraws) :
    (Transactions.generate_transaction t tx_id acc d).risk_score =
      (Transactions.calculate_risk_score d.amount d.tx_type d.hour
        d.is_international d.velocity d.suspicious).1 ∧
    (Transactions.generate_transaction t tx_id acc d).risk_flags =
      (Transactions.calculate_risk_score d.amount d.tx_type d.hour
        d.is_international d.velocity d.suspicious).2 ∧
    (Transactions.generate_transaction t tx_id acc d).is_flagged =
      (if (Transactions.generate_transaction t tx_id acc d).risk_score > 50
        then "Y" else "N") := by
  refine ⟨rfl, rfl, rfl⟩

/-- C7: every transaction's risk score lies in `[0, 100]`, and
`is_flagged` is `"Y"` exactly when the risk score exceeds 50. -/
theorem c7_risk_score_and_flag :
    ∀ (t tx_id : ℕ) (acc : String) (d : Transactions.TxnDraws),
      0 ≤ (Transactions.generate_transaction t tx_id acc d).risk_score ∧
      (Transactions.generate_transaction t tx_id acc d).risk_score ≤ 100 ∧
      ((Transactions.generate_transaction t tx_id acc d).is_flagged = "Y" ↔
        50 < (Transactions.generate_transaction t tx_id acc d).risk_score) := by
  intro t tx_id acc d
  obtain ⟨hr, _, hf⟩ := generate_transaction_risk_fields t tx_id acc d
  obtain ⟨h0, h100, _⟩ := calculate_risk_score_bounds d.amount d.tx_type
    d.hour d.is_international d.velocity d.suspicious
  refine ⟨by rw [hr]; exact h0, by rw [hr]; exact h100, ?_⟩
  rw [hf]
  by_cases hlt :
      50 < (Transactions.generate_transaction t tx_id acc d).risk_score <;>
    simp [hlt]

/-- C10: the amount step of the risk scoring adds exactly 20 (with flag
`High_Amount`) for every amount above 5000; the `elif amount > 10000`
branch is unreachable, so no transaction ever carries the
`Very_High_Amount` flag. -/
theorem c10_very_high_amount_unreachable :
    (∀ a : ℚ, 5000 < a →
      Transactions.amountRiskStep a = (20, ["High_Amount"])) ∧
    (∀ (t tx_id : ℕ) (acc : String) (d : Transactions.TxnDraws),
      "Very_High_Amount" ∉
        (Transactions.generate_transaction t tx_id acc d).risk_flags) := by
  constructor
  · intro a ha
    unfold Transactions.amountRiskStep
    rw [if_pos ha]
  · intro t tx_id acc d
    obtain ⟨_, hfl, _⟩ := generate_transaction_risk_fields t tx_id acc d
    rw [hfl]
    exact (calculate_risk_score_bounds d.amount d.tx_type d.hour
      d.is_international d.velocity d.suspicious).2.2

/-- Witness for `c10_very_high_amount_unreachable` at amount 6000. -/
theorem c10_witness :
    Transactions.amountRiskStep 6000 = (20, ["High_Amount"]) ∧
    "Very_High_Amount" ∉
      (Transactions.generate_transaction 1700000000 1 "ACC-0000000001"
        {}).risk_flags :=
  ⟨c10_very_high_amount_unreachable.1 6000 (by norm_num),
    c10_very_high_amount_unreachable.2 1700000000 1 "ACC-0000000001" {}⟩

end Banking

namespace Banking

/-! ## C2: account balance ranges -/

theorem ccLimit_bounds (n : ℕ) :
    1000 ≤ (([1000, 5000, 10000, 25000, 50000, 100000] : List ℚ).getD n 5000) ∧
      (([1000, 5000, 10000, 25000, 50000, 100000] : List ℚ).getD n 5000) ≤
        100000 := by
  rcases n with _ | _ | _ | _ | _ | _ | m <;> norm_num [List.getD]

set_option maxHeartbeats 1000000 in
/-- C2 (amended): the configured `[min_balance, max_balance]` range holds
for CD, Investment, Checking and Savings balances; loan balances (Mortgage,
AutoLoan, PersonalLoan) instead lie in `[min_balance/5, 0.95·max_balance]`
(the remaining-balance model multiplies a principal from the configured
range by a remaining fraction drawn in `[0.2, 0.95]`); CreditCard balances
lie in `[-70000, 0]` (utilization up to 0.7 of a credit limit up to
100000), not in the configured `[-50000, 0]`. -/
theorem c2_balance_ranges :
    (∀ atype (d : Accounts.BalanceDraws),
      atype ∈ (["CD", "Investment", "Checking", "Savings"] : List String) →
      d.Valid atype (Accounts.ACCOUNT_TYPES atype) →
      (Accounts.ACCOUNT_TYPES atype).min_balance ≤
          Accounts.generate_balance atype (Accounts.ACCOUNT_TYPES atype) d ∧
        Accounts.generate_balance atype (Accounts.ACCOUNT_TYPES atype) d ≤
          (Accounts.ACCOUNT_TYPES atype).max_balance) ∧
    (∀ atype (d : Accounts.BalanceDraws),
      atype ∈ (["Mortgage", "AutoLoan", "PersonalLoan"] : List String) →
      d.Valid atype (Accounts.ACCOUNT_TYPES atype) →
      (Accounts.ACCOUNT_TYPES atype).min_balance / 5 ≤
          Accounts.generate_balance atype (Accounts.ACCOUNT_TYPES atype) d ∧
        Accounts.generate_balance atype (Accounts.ACCOUNT_TYPES atype) d ≤
          19 / 20 * (Accounts.ACCOUNT_TYPES atype).max_balance) ∧
    (∀ d : Accounts.BalanceDraws,
      d.Valid "CreditCard" (Accounts.ACCOUNT_TYPES "CreditCard") →
      -70000 ≤ Accounts.generate_balance "CreditCard"
          (Accounts.ACCOUNT_TYPES "CreditCard") d ∧
        Accounts.generate_balance "CreditCard"
          (Accounts.ACCOUNT_TYPES "CreditCard") d ≤ 0) := by
  refine ⟨fun atype d hmem hv => ?_, fun atype d hmem hv => ?_, fun d hv => ?_⟩
  · obtain ⟨_, _, _, _, _, _, _, _, _, _, _, hu11, hu12, hu21, hu22,
      hinv⟩ := hv
    simp only [List.mem_cons, List.mem_singleton, List.not_mem_nil,
      or_false] at hmem
    rcases hmem with rfl | rfl | rfl | rfl
    · have hb : Accounts.generate_balance "CD" (Accounts.ACCOUNT_TYPES "CD") d =
          ([1000, 5000, 10000, 25000, 50000, 100000, 250000] : List ℚ).getD
            (d.cdIdx % 7) 0 := rfl
      rw [hb]
      have hk : d.cdIdx % 7 < 7 := Nat.mod_lt _ (by norm_num)
      set k := d.cdIdx % 7 with hkdef
      interval_cases k <;>
        norm_num [List.getD, Accounts.ACCOUNT_TYPES]
    · have hb : Accounts.generate_balance "Investment"
          (Accounts.ACCOUNT_TYPES "Investment") d =
          (if d.invD1 < 3/10 then round2 d.invU1
            else if d.invD2 < 6/10 then round2 d.invU2
            else round2 d.invU3) := rfl
      rw [hb]
      have hmin : (Accounts.ACCOUNT_TYPES "Investment").min_balance = 0 := rfl
      have hmax : (Accounts.ACCOUNT_TYPES "Investment").max_balance =
        5000000 := rfl
      rw [hmin, hmax]
      obtain ⟨hu31, hu32⟩ := hinv rfl
      split_ifs
      · exact round2_mem_Icc 0 500000000 (by norm_num) (by norm_num) hu11
          (by linarith)
      · exact round2_mem_Icc 0 500000000 (by norm_num) (by norm_num)
          (by linarith) (by linarith)
      · exact round2_mem_Icc 0 500000000 (by norm_num) (by norm_num)
          (by linarith) hu32
    · have hb : Accounts.generate_balance "Checking"
          (Accounts.ACCOUNT_TYPES "Checking") d =
          round2 (min (max d.lognorm 0) 50000) := rfl
      rw [hb]
      have hmin : (Accounts.ACCOUNT_TYPES "Checking").min_balance = 0 := rfl
      have hmax : (Accounts.ACCOUNT_TYPES "Checking").max_balance =
        50000 := rfl
      rw [hmin, hmax]
      exact round2_mem_Icc 0 5000000 (by norm_num) (by norm_num)
        (le_min (le_max_right _ _) (by norm_num)) (min_le_right _ _)
    · have hb : Accounts.generate_balance "Savings"
          (Accounts.ACCOUNT_TYPES "Savings") d =
          round2 (min (max d.lognorm 0) 250000) := rfl
      rw [hb]
      have hmin : (Accounts.ACCOUNT_TYPES "Savings").min_balance = 0 := rfl
      have hmax : (Accounts.ACCOUNT_TYPES "Savings").max_balance =
        250000 := rfl
      rw [hmin, hmax]
      exact round2_mem_Icc 0 25000000 (by norm_num) (by norm_num)
        (le_min (le_max_right _ _) (by norm_num)) (min_le_right _ _)
  · obtain ⟨_, _, _, _, hloan, hr1, hr2, _⟩ := hv
    simp only [List.mem_cons, List.mem_singleton, List.not_mem_nil,
      or_false] at hmem
    rcases hmem with rfl | rfl | rfl
    · obtain ⟨ho1, ho2⟩ := hloan (Or.inl rfl)
      have hb : Accounts.generate_balance "Mortgage"
          (Accounts.ACCOUNT_TYPES "Mortgage") d =
          round2 (d.loanOriginal * d.loanRemainPct) := rfl
      rw [hb]
      have hmin : (Accounts.ACCOUNT_TYPES "Mortgage").min_balance =
        50000 := rfl
      have hmax : (Accounts.ACCOUNT_TYPES "Mortgage").max_balance =
        2000000 := rfl
      rw [hmin, hmax]
      have h1 : (50000 : ℚ) / 5 = 10000 := by norm_num
      have h2 : (19 : ℚ) / 20 * 2000000 = 1900000 := by norm_num
      rw [h1, h2]
      exact round2_mem_Icc 1000000 190000000 (by norm_num) (by norm_num)
        (by simp only [Accounts.ACCOUNT_TYPES] at ho1 ho2; nlinarith)
        (by simp only [Accounts.ACCOUNT_TYPES] at ho1 ho2; nlinarith)
    · obtain ⟨ho1, ho2⟩ := hloan (Or.inr (Or.inl rfl))
      have hb : Accounts.generate_balance "AutoLoan"
          (Accounts.ACCOUNT_TYPES "AutoLoan") d =
          round2 (d.loanOriginal * d.loanRemainPct) := rfl
      rw [hb]
      have hmin : (Accounts.ACCOUNT_TYPES "AutoLoan").min_balance =
        5000 := rfl
      have hmax : (Accounts.ACCOUNT_TYPES "AutoLoan").max_balance =
        100000 := rfl
      rw [hmin, hmax]
      have h1 : (5000 : ℚ) / 5 = 1000 := by norm_num
      have h2 : (19 : ℚ) / 20 * 100000 = 95000 := by norm_num
      rw [h1, h2]
      exact round2_mem_Icc 100000 9500000 (by norm_num) (by norm_num)
        (by simp only [Accounts.ACCOUNT_TYPES] at ho1 ho2; nlinarith)
        (by simp only [Accounts.ACCOUNT_TYPES] at ho1 ho2; nlinarith)
    · obtain ⟨ho1, ho2⟩ := hloan (Or.inr (Or.inr rfl))
      have hb : Accounts.generate_balance "PersonalLoan"
          (Accounts.ACCOUNT_TYPES "PersonalLoan") d =
          round2 (d.loanOriginal * d.loanRemainPct) := rfl
      rw [hb]
      have hmin : (Accounts.ACCOUNT_TYPES "PersonalLoan").min_balance =
        1000 := rfl
      have hmax : (Accounts.ACCOUNT_TYPES "PersonalLoan").max_balance =
        50000 := rfl
      rw [hmin, hmax]
      have h1 : (1000 : ℚ) / 5 = 200 := by norm_num
      have h2 : (19 : ℚ) / 20 * 50000 = 47500 := by norm_num
      rw [h1, h2]
      exact round2_mem_Icc 20000 4750000 (by norm_num) (by norm_num)
        (by simp only [Accounts.ACCOUNT_TYPES] at ho1 ho2; nlinarith)
        (by simp only [Accounts.ACCOUNT_TYPES] at ho1 ho2; nlinarith)
  · obtain ⟨_, _, hu1, hu2, _⟩ := hv
    have hb : Accounts.generate_balance "CreditCard"
        (Accounts.ACCOUNT_TYPES "CreditCard") d =
        (if d.ccPayoff < 3/10 then 0
          else round2 (-(([1000, 5000, 10000, 25000, 50000, 100000] :
            List ℚ).getD (d.ccLimitIdx % 6) 5000) * d.ccUtilization)) := rfl
    rw [hb]
    split_ifs
    · norm_num
    · obtain ⟨hl1, hl2⟩ := ccLimit_bounds (d.ccLimitIdx % 6)
      exact round2_mem_Icc (-7000000) 0 (by norm_num) (by norm_num)
        (by nlinarith) (by nlinarith)

end Banking

namespace Banking

/-- C2 (counterexample): with valid draws — original principal 50000 at the
configured Mortgage minimum and remaining fraction 0.2 — the generated
Mortgage balance is 10000, outside the configured `[50000, 2000000]`. -/
theorem c2_mortgage_below_min :
    lowMortgageDraws.Valid "Mortgage" (Accounts.ACCOUNT_TYPES "Mortgage") ∧
    ¬((Accounts.ACCOUNT_TYPES "Mortgage").min_balance ≤
        Accounts.generate_balance "Mortgage"
          (Accounts.ACCOUNT_TYPES "Mortgage") lowMortgageDraws ∧
      Accounts.generate_balance "Mortgage"
          (Accounts.ACCOUNT_TYPES "Mortgage") lowMortgageDraws ≤
        (Accounts.ACCOUNT_TYPES "Mortgage").max_balance) := by
  constructor
  · unfold Accounts.BalanceDraws.Valid
    norm_num [lowMortgageDraws, Accounts.ACCOUNT_TYPES]
  · have hb : Accounts.generate_balance "Mortgage"
        (Accounts.ACCOUNT_TYPES "Mortgage") lowMortgageDraws =
        round2 (50000 * (1/5)) := rfl
    have hv : round2 (50000 * (1/5)) = 10000 := by unfold round2; norm_num
    rw [hb, hv]
    have hmin : (Accounts.ACCOUNT_TYPES "Mortgage").min_balance = 50000 := rfl
    rw [hmin]
    norm_num

/-- Witness for `c2_balance_ranges`: concrete valid draws for a CD balance,
a Checking balance and a CreditCard balance. -/
theorem c2_balance_ranges_witness :
    ((Accounts.ACCOUNT_TYPES "CD").min_balance ≤
        Accounts.generate_balance "CD" (Accounts.ACCOUNT_TYPES "CD")
          cdWitnessDraws ∧
      Accounts.generate_balance "CD" (Accounts.ACCOUNT_TYPES "CD")
          cdWitnessDraws ≤ (Accounts.ACCOUNT_TYPES "CD").max_balance) ∧
    ((Accounts.ACCOUNT_TYPES "Checking").min_balance ≤
        Accounts.generate_balance "Checking"
          (Accounts.ACCOUNT_TYPES "Checking") {} ∧
      Accounts.generate_balance "Checking"
          (Accounts.ACCOUNT_TYPES "Checking") {} ≤
        (Accounts.ACCOUNT_TYPES "Checking").max_balance) ∧
    (-70000 ≤ Accounts.generate_balance "CreditCard"
        (Accounts.ACCOUNT_TYPES "CreditCard") ccWitnessDraws ∧
      Accounts.generate_balance "CreditCard"
        (Accounts.ACCOUNT_TYPES "CreditCard") ccWitnessDraws ≤ 0) :=
  ⟨c2_balance_ranges.1 "CD" cdWitnessDraws (by decide)
      (by unfold Accounts.BalanceDraws.Valid
          norm_num [cdWitnessDraws, Accounts.ACCOUNT_TYPES]),
    c2_balance_ranges.1 "Checking" {} (by decide)
      (by unfold Accounts.BalanceDraws.Valid
          norm_num [Accounts.ACCOUNT_TYPES] <;> decide),
    c2_balance_ranges.2.2 ccWitnessDraws
      (by unfold Accounts.BalanceDraws.Valid
          norm_num [ccWitnessDraws, Accounts.ACCOUNT_TYPES] <;> decide)⟩

/-! ## C9: loan monthly payment -/

theorem mortgageTerm_pos (n : ℕ) : 0 < ([180, 360] : List ℕ).getD n 360 := by
  rcases n with _ | _ | m <;> norm_num [List.getD]

theorem autoTerm_pos (n : ℕ) :
    0 < ([36, 48, 60, 72, 84] : List ℕ).getD n 60 := by
  rcases n with _ | _ | _ | _ | _ | m <;> norm_num [List.getD]

theorem personalTerm_pos (n : ℕ) :
    0 < ([12, 24, 36, 48, 60] : List ℕ).getD n 60 := by
  rcases n with _ | _ | _ | _ | _ | m <;> norm_num [List.getD]

theorem round4_pos_of_lo (lo : ℚ) (k : ℤ) (hk : lo = (k : ℚ) / 10000)
    (hpos : 0 < lo) {x : ℚ} (hx : lo ≤ x) : 0 < round4 x := by
  calc (0 : ℚ) < lo := hpos
    _ = round4 lo := by rw [hk]; exact (round4_tenthousandth k).symm
    _ ≤ round4 x := round4_le_round4 hx

theorem calculate_monthly_payment_annuity (P rate : ℚ) (n : ℕ)
    (hr : 0 < rate) (hn : 0 < n) :
    Accounts.calculate_monthly_payment P rate n =
      round2 (annuity_payment_spec P rate n) := by
  unfold Accounts.calculate_monthly_payment
  rw [if_neg (by push_neg; exact ⟨ne_of_gt hr, Nat.pos_iff_ne_zero.mp hn⟩)]
  unfold annuity_payment_spec
  congr 1
  ring

/-- C9: for every loan account (Mortgage, AutoLoan, PersonalLoan) the drawn
rate is positive and the term is positive, so the stored `monthly_payment`
is the cent-rounded fixed-payment annuity formula applied to the original
principal `balance / remaining_fraction` with `r = annual_rate/12` and
`n = term_months`; and whenever the rate is zero (which no loan account
reaches) the function falls back to straight-line division of the principal
by the term. -/
theorem c9_monthly_payment :
    (∀ atype cfg (balance : ℚ) (rd : Accounts.RateDraws) (subtype : String)
        (ld : Accounts.LoanDraws) (rate orig : ℚ) (term : ℕ) (payment : ℚ),
      cfg = Accounts.ACCOUNT_TYPES atype →
      atype ∈ (["Mortgage", "AutoLoan", "PersonalLoan"] : List String) →
      cfg.interest_rate_lo ≤ rd.base →
      rate = Accounts.generate_interest_rate atype cfg subtype rd →
      Accounts.generate_loan_fields atype cfg balance rate ld =
        (orig, term, payment) →
      0 < rate ∧ 0 < term ∧
        payment =
          round2 (annuity_payment_spec (balance / ld.origPct) rate term)) ∧
    (∀ (P : ℚ) (n : ℕ), 1 ≤ n →
      Accounts.calculate_monthly_payment P 0 n = round2 (P / (n : ℚ))) := by
  constructor
  · intro atype cfg balance rd subtype ld rate orig term payment hcfg hmem
      hlo hrate hfields
    subst hcfg
    simp only [List.mem_cons, List.mem_singleton, List.not_mem_nil,
      or_false] at hmem
    rcases hmem with rfl | rfl | rfl
    · have hratepos : 0 < rate := by
        rw [hrate]
        have hr : Accounts.generate_interest_rate "Mortgage"
            (Accounts.ACCOUNT_TYPES "Mortgage") subtype rd =
            round4 rd.base := rfl
        rw [hr]
        refine round4_pos_of_lo (55/1000) 550 (by norm_num) (by norm_num) ?_
        have : (Accounts.ACCOUNT_TYPES "Mortgage").interest_rate_lo =
          55 / 1000 := rfl
        rw [this] at hlo
        exact_mod_cast hlo
      have hf : Accounts.generate_loan_fields "Mortgage"
          (Accounts.ACCOUNT_TYPES "Mortgage") balance rate ld =
          (round2 (balance / ld.origPct),
            ([180, 360] : List ℕ).getD (ld.termIdx % 2) 360,
            Accounts.calculate_monthly_payment (balance / ld.origPct) rate
              (([180, 360] : List ℕ).getD (ld.termIdx % 2) 360)) := rfl
      rw [hf] at hfields
      simp only [Prod.mk.injEq] at hfields
      obtain ⟨-, ht, hp⟩ := hfields
      have htp : 0 < term := ht ▸ mortgageTerm_pos _
      exact ⟨hratepos, htp, by
        rw [← hp, ← ht, calculate_monthly_payment_annuity _ _ _ hratepos
          (mortgageTerm_pos _)]⟩
    · have hratepos : 0 < rate := by
        rw [hrate]
        have hr : Accounts.generate_interest_rate "AutoLoan"
            (Accounts.ACCOUNT_TYPES "AutoLoan") subtype rd =
            round4 rd.base := rfl
        rw [hr]
        refine round4_pos_of_lo (45/1000) 450 (by norm_num) (by norm_num) ?_
        have : (Accounts.ACCOUNT_TYPES "AutoLoan").interest_rate_lo =
          45 / 1000 := rfl
        rw [this] at hlo
        exact_mod_cast hlo
      have hf : Accounts.generate_loan_fields "AutoLoan"
          (Accounts.ACCOUNT_TYPES "AutoLoan") balance rate ld =
          (round2 (balance / ld.origPct),
            ([36, 48, 60, 72, 84] : List ℕ).getD (ld.termIdx % 5) 60,
            Accounts.calculate_monthly_payment (balance / ld.origPct) rate
              (([36, 48, 60, 72, 84] : List ℕ).getD (ld.termIdx % 5) 60)) := rfl
      rw [hf] at hfields
      simp only [Prod.mk.injEq] at hfields
      obtain ⟨-, ht, hp⟩ := hfields
      have htp : 0 < term := ht ▸ autoTerm_pos _
      exact ⟨hratepos, htp, by
        rw [← hp, ← ht, calculate_monthly_payment_annuity _ _ _ hratepos
          (autoTerm_pos _)]⟩
    · have hratepos : 0 < rate := by
        rw [hrate]
        have hr : Accounts.generate_interest_rate "PersonalLoan"
            (Accounts.ACCOUNT_TYPES "PersonalLoan") subtype rd =
            round4 rd.base := rfl
        rw [hr]
        refine round4_pos_of_lo (6/100) 600 (by norm_num) (by norm_num) ?_
        have : (Accounts.ACCOUNT_TYPES "PersonalLoan").interest_rate_lo =
          6 / 100 := rfl
        rw [this] at hlo
        exact_mod_cast hlo
      have hf : Accounts.generate_loan_fields "PersonalLoan"
          (Accounts.ACCOUNT_TYPES "PersonalLoan") balance rate ld =
          (round2 (balance / ld.origPct),
            ([12, 24, 36, 48, 60] : List ℕ).getD (ld.termIdx % 5) 60,
            Accounts.calculate_monthly_payment (balance / ld.origPct) rate
              (([12, 24, 36, 48, 60] : List ℕ).getD (ld.termIdx % 5) 60)) := rfl
      rw [hf] at hfields
      simp only [Prod.mk.injEq] at hfields
      obtain ⟨-, ht, hp⟩ := hfields
      have htp : 0 < term := ht ▸ personalTerm_pos _
      exact ⟨hratepos, htp, by
        rw [← hp, ← ht, calculate_monthly_payment_annuity _ _ _ hratepos
          (personalTerm_pos _)]⟩
  · intro P n hn
    unfold Accounts.calculate_monthly_payment
    rw [if_pos (Or.inl rfl)]
    congr 2
    have : max n 1 = n := Nat.max_eq_left hn
    rw [this]

/-- Witness for `c9_monthly_payment` at a concrete Mortgage. -/
theorem c9_monthly_payment_witness :
    0 < Accounts.generate_interest_rate "Mortgage"
        (Accounts.ACCOUNT_TYPES "Mortgage") "30-Year Fixed"
        mortgageRateDraws ∧
    0 < (Accounts.generate_loan_fields "Mortgage"
        (Accounts.ACCOUNT_TYPES "Mortgage") 100000
        (Accounts.generate_interest_rate "Mortgage"
          (Accounts.ACCOUNT_TYPES "Mortgage") "30-Year Fixed"
          mortgageRateDraws) {}).2.1 ∧
    (Accounts.generate_loan_fields "Mortgage"
        (Accounts.ACCOUNT_TYPES "Mortgage") 100000
        (Accounts.generate_interest_rate "Mortgage"
          (Accounts.ACCOUNT_TYPES "Mortgage") "30-Year Fixed"
          mortgageRateDraws) {}).2.2 =
      round2 (annuity_payment_spec
        (100000 / (Accounts.LoanDraws.origPct {}))
        (Accounts.generate_interest_rate "Mortgage"
          (Accounts.ACCOUNT_TYPES "Mortgage") "30-Year Fixed"
          mortgageRateDraws)
        (Accounts.generate_loan_fields "Mortgage"
          (Accounts.ACCOUNT_TYPES "Mortgage") 100000
          (Accounts.generate_interest_rate "Mortgage"
            (Accounts.ACCOUNT_TYPES "Mortgage") "30-Year Fixed"
            mortgageRateDraws) {}).2.1) := by
  have h := c9_monthly_payment.1 "Mortgage" (Accounts.ACCOUNT_TYPES "Mortgage")
    100000 mortgageRateDraws "30-Year Fixed" {} _ _ _ _ rfl (by decide)
    (by norm_num [Accounts.ACCOUNT_TYPES, mortgageRateDraws]) rfl rfl
  exact h

end Banking

namespace Banking

/-! ## C8: branch allocation across cities -/

theorem allocateCounts_keys (l : List (Branches.Location × ℕ)) (rem : ℕ) :
    (Branches.allocateCounts rem l).map Prod.fst = l.map Prod.fst := by
  induction l generalizing rem with
  | nil => rfl
  | cons x rest ih => simp [Branches.allocateCounts, ih]

theorem allocateCounts_pos (l : List (Branches.Location × ℕ)) :
    ∀ rem : ℕ, (∀ p ∈ l, 1 ≤ p.2) →
      (l.dropLast.map Prod.snd).sum < rem →
      ∀ q ∈ Branches.allocateCounts rem l, 1 ≤ q.2 := by
  induction l with
  | nil =>
    intro rem _ _ q hq
    simp [Branches.allocateCounts] at hq
  | cons x rest ih =>
    intro rem hpos hsum q hq
    simp only [Branches.allocateCounts, List.mem_cons] at hq
    rcases hq with rfl | hq
    · have h1 : 1 ≤ x.2 := hpos x (List.mem_cons_self _ _)
      have h2 : 0 < rem := lt_of_le_of_lt (Nat.zero_le _) hsum
      simp only
      omega
    · rcases rest with - | ⟨y, rest'⟩
      · simp [Branches.allocateCounts] at hq
      · have hx2 : x.2 < rem := by
          rw [List.dropLast_cons₂, List.map_cons, List.sum_cons] at hsum
          omega
        refine ih (rem - min x.2 rem)
          (fun p hp => hpos p (List.mem_cons_of_mem _ hp)) ?_ q hq
        rw [List.dropLast_cons₂, List.map_cons, List.sum_cons] at hsum
        omega

/-- C8 (amended): the generator allocates `max(1, ⌊N·weight/totalWeight⌋)`
branches per city in fixed table order, but stops once `N` branches exist;
every city of the table appears in the allocation, and every city receives
at least one branch exactly under the proviso that the allocations of all
preceding cities total fewer than `N` (for small `N`, such as the tiny
preset's `N = 10`, only a prefix of the city table receives branches). -/
theorem c8_city_allocation :
    ∀ n : ℕ, Branches.prefixAllocation n < n →
      (Branches.cityBranchCounts n).map Prod.fst =
        Branches.US_BANKING_LOCATIONS ∧
      ∀ p ∈ Branches.cityBranchCounts n, 1 ≤ p.2 := by
  intro n hpre
  constructor
  · rw [Branches.cityBranchCounts, allocateCounts_keys,
      Branches.branchesPerLocation, List.map_map]
    exact List.map_id _
  · refine allocateCounts_pos _ n (fun p hp => ?_) ?_
    · rw [Branches.branchesPerLocation] at hp
      obtain ⟨loc, -, rfl⟩ := List.mem_map.mp hp
      exact le_max_left _ _
    · exact hpre

/-- C8 (counterexample): with target count `N = 10` (the tiny preset) not
every city receives a branch — the allocation stops after the first ten
cities, so e.g. Phoenix receives none. -/
theorem c8_small_n_misses_cities :
    1 ≤ 10 ∧ ¬ ∀ p ∈ Branches.cityBranchCounts 10, 1 ≤ p.2 := by
  refine ⟨by norm_num, ?_⟩
  decide

/-- Witness for `c8_city_allocation` at `N = 160` (the total city weight). -/
theorem c8_city_allocation_witness :
    Branches.prefixAllocation 160 < 160 ∧
    ((Branches.cityBranchCounts 160).map Prod.fst =
        Branches.US_BANKING_LOCATIONS ∧
      ∀ p ∈ Branches.cityBranchCounts 160, 1 ≤ p.2) :=
  ⟨by decide, c8_city_allocation 160 (by decide)⟩

end Banking

namespace Banking

/-! ## C5: output file creation policy -/

set_option maxHeartbeats 1600000 in
/-- C5 (amended): each relationship file is created exactly when its
category is non-empty, and `relationships_all.tsv` exactly when some
category is non-empty — an empty category (such as TRANSFER_TO under
`--skip-transactions`) produces no file at all. -/
theorem c5_relationship_file_policy :
    ∀ n1 n2 n3 n4 n5 n6 : ℕ,
      ("owns_account.tsv" ∈
          Relationships.writtenRelationshipFiles [n1, n2, n3, n4, n5, n6] ↔
        n1 ≠ 0) ∧
      ("banks_at.tsv" ∈
          Relationships.writtenRelationshipFiles [n1, n2, n3, n4, n5, n6] ↔
        n2 ≠ 0) ∧
      ("transfer_to.tsv" ∈
          Relationships.writtenRelationshipFiles [n1, n2, n3, n4, n5, n6] ↔
        n3 ≠ 0) ∧
      ("knows.tsv" ∈
          Relationships.writtenRelationshipFiles [n1, n2, n3, n4, n5, n6] ↔
        n4 ≠ 0) ∧
      ("employed_by.tsv" ∈
          Relationships.writtenRelationshipFiles [n1, n2, n3, n4, n5, n6] ↔
        n5 ≠ 0) ∧
      ("authorized_user.tsv" ∈
          Relationships.writtenRelationshipFiles [n1, n2, n3, n4, n5, n6] ↔
        n6 ≠ 0) ∧
      ("relationships_all.tsv" ∈
          Relationships.writtenRelationshipFiles [n1, n2, n3, n4, n5, n6] ↔
        n1 + n2 + n3 + n4 + n5 + n6 ≠ 0) := by
  intro n1 n2 n3 n4 n5 n6
  refine ⟨?_, ?_, ?_, ?_, ?_, ?_, ?_⟩ <;>
  · simp [Relationships.writtenRelationshipFiles,
      Relationships.relationshipFileNames, List.filter_cons,
      apply_ite (List.map (fun p : (String × String) × ℕ => p.1.2)),
      List.mem_append]
    split_ifs <;> simp_all

/-- C5 (counterexample): a run without transactions produces no TRANSFER_TO
edges, and then `transfer_to.tsv` is not among the files written, even when
the other relationship categories are non-empty — the claim that all eleven
files are always created fails. -/
theorem c5_skip_transactions_missing_file :
    Relationships.generate_transfer_relationships [] ["ACC-0000000001"] []
        = [] ∧
    "transfer_to.tsv" ∉ Relationships.writtenRelationshipFiles
      [5, 5, (Relationships.generate_transfer_relationships []
        ["ACC-0000000001"] []).length, 2, 1, 1] := by
  refine ⟨rfl, ?_⟩
  decide

/-! ## C6: transactions reference only Active accounts -/

theorem generateForAccounts_account_ids (t : ℕ) (numTx : ℕ → ℤ)
    (draws : ℕ → Transactions.TxnDraws) :
    ∀ (accounts : List (String × String)) (i tx_id : ℕ),
      ∀ tx ∈ Transactions.generateForAccounts t numTx draws accounts i tx_id,
        tx.account_id ∈ accounts.map Prod.fst := by
  intro accounts
  induction accounts with
  | nil =>
    intro i tx_id tx htx
    simp [Transactions.generateForAccounts] at htx
  | cons acc rest ih =>
    intro i tx_id tx htx
    simp only [Transactions.generateForAccounts, List.mem_append] at htx
    rcases htx with h | h
    · obtain ⟨j, -, rfl⟩ := List.mem_map.mp h
      exact List.mem_cons_self _ _
    · exact List.mem_cons_of_mem _ (ih _ _ tx h)

theorem generateForAccounts_head_mem (t : ℕ) (numTx : ℕ → ℤ)
    (draws : ℕ → Transactions.TxnDraws) (acc : String × String)
    (rest : List (String × String)) (i tx_id : ℕ) :
    Transactions.generate_transaction t tx_id acc.1 (draws tx_id) ∈
      Transactions.generateForAccounts t numTx draws (acc :: rest) i tx_id := by
  simp only [Transactions.generateForAccounts]
  apply List.mem_append_left
  apply List.mem_map.mpr
  refine ⟨0, List.mem_range.mpr ?_, by simp⟩
  have h1 : (1 : ℤ) ≤ max 1 (numTx i) := le_max_left _ _
  omega

/-- C6 (amended): whenever at least one loaded account row is Active,
every generated transaction's `account_id` is the id of one of the Active
rows; the guarantee fails only in the fallback where no Active account was
loaded and the placeholder id list is substituted. -/
theorem c6_transactions_use_active_accounts :
    ∀ (t : ℕ) (rows : List Transactions.AccountRow) (numTx : ℕ → ℤ)
      (draws : ℕ → Transactions.TxnDraws),
      Transactions.load_accounts rows ≠ [] →
      ∀ tx ∈ Transactions.generate_transactions t rows numTx draws,
        tx.account_id ∈ (Transactions.load_accounts rows).map Prod.fst := by
  intro t rows numTx draws hne tx htx
  unfold Transactions.generate_transactions at htx
  rw [List.mem_mergeSort, if_neg hne] at htx
  exact generateForAccounts_account_ids t numTx draws _ 0 1 tx htx

/-- C6 (counterexample): when the only loaded account row has status
`Dormant`, the Active filter leaves nothing, the placeholder id list is
substituted, and the generated transactions carry the id of the Dormant
account — a non-Active account receives transactions. -/
theorem c6_dormant_account_receives_transactions :
    dormantRow.status ≠ "Active" ∧
    Transactions.load_accounts [dormantRow] = [] ∧
    ∃ tx ∈ Transactions.generate_transactions 1700000000 [dormantRow]
        (fun _ => 1) (fun _ => {}),
      tx.account_id = dormantRow.account_id := by
  refine ⟨by decide, rfl, ?_⟩
  refine ⟨Transactions.generate_transaction 1700000000 1 "ACC-0000000001" {},
    ?_, rfl⟩
  show Transactions.generate_transaction 1700000000 1 "ACC-0000000001" {} ∈
    List.mergeSort (Transactions.generateForAccounts 1700000000 (fun _ => 1)
      (fun _ => {}) Transactions.placeholderAccounts 0 1) Transactions.txnLe
  exact List.mem_mergeSort.mpr
    (generateForAccounts_head_mem 1700000000 (fun _ => 1) (fun _ => {})
      ("ACC-0000000001", "Checking") _ 0 1)

/-- Witness for `c6_transactions_use_active_accounts` on one Active row. -/
theorem c6_transactions_use_active_accounts_witness :
    Transactions.load_accounts [activeRow] ≠ [] ∧
    ∀ tx ∈ Transactions.generate_transactions 1700000000 [activeRow]
        (fun _ => 1) (fun _ => {}),
      tx.account_id ∈ (Transactions.load_accounts [activeRow]).map Prod.fst :=
  ⟨by decide, c6_transactions_use_active_accounts 1700000000 [activeRow]
    (fun _ => 1) (fun _ => {}) (by decide)⟩

end Banking

namespace Banking

/-! ## C4: TRANSFER_TO inference -/

theorem transferScan_filter_eligible (va : List String) :
    ∀ (txs : List Relationships.TxRow) (oracle : List (ℚ × ℕ))
      (stats : List ((String × String) × Relationships.TStats)),
      Relationships.transferScan va txs oracle stats =
        Relationships.transferScan va
          (txs.filter (fun tx => decide (eligibleTransfer va tx)))
          oracle stats := by
  intro txs
  induction txs with
  | nil => intro oracle stats; rfl
  | cons tx rest ih =>
    intro oracle stats
    by_cases he : eligibleTransfer va tx
    · have he' : tx.transaction_type = "Transfer" ∧ tx.status = "Completed" ∧
          tx.account_id ∈ va := he
      rw [List.filter_cons_of_pos (by simpa using he)]
      simp only [Relationships.transferScan]
      rw [if_pos he', if_pos he']
      by_cases hpt : va.filter (· ≠ tx.account_id) = []
      · rw [if_pos hpt, if_pos hpt]
        exact ih oracle stats
      · rw [if_neg hpt, if_neg hpt]
        rcases oracle with - | ⟨⟨r, pick⟩, os⟩
        · exact ih [] stats
        · dsimp only
          by_cases hr : r < 1/10
          · rw [if_pos hr, if_pos hr]
            exact ih os _
          · rw [if_neg hr, if_neg hr]
            exact ih os stats
    · have he' : ¬(tx.transaction_type = "Transfer" ∧ tx.status = "Completed" ∧
          tx.account_id ∈ va) := he
      rw [List.filter_cons_of_neg (by simpa using he)]
      simp only [Relationships.transferScan]
      rw [if_neg he']
      exact ih oracle stats

theorem updateStats_invariant (key : String × String) (amt : ℚ) (date : String)
    (A : List ℚ) :
    ∀ stats : List ((String × String) × Relationships.TStats),
      (∀ p ∈ stats, ∃ l : List ℚ, l.Sublist A ∧ p.2.count = l.length ∧
        p.2.total_amount = l.sum) →
      ∀ p ∈ Relationships.updateStats key amt date stats,
        ∃ l : List ℚ, l.Sublist (A ++ [amt]) ∧ p.2.count = l.length ∧
          p.2.total_amount = l.sum := by
  intro stats
  induction stats with
  | nil =>
    intro _ p hp
    simp only [Relationships.updateStats, List.mem_singleton] at hp
    subst hp
    refine ⟨[amt], ?_, rfl, by simp [Relationships.TStats.add,
      Relationships.TStats.empty]⟩
    simpa using List.Sublist.append (List.nil_sublist A) (List.Sublist.refl [amt])
  | cons q rest ih =>
    intro hstats p hp
    obtain ⟨k, s⟩ := q
    simp only [Relationships.updateStats] at hp
    by_cases hk : k = key
    · rw [if_pos hk] at hp
      rcases List.mem_cons.mp hp with rfl | hmem
      · obtain ⟨l, hsub, hcnt, hsum⟩ := hstats (k, s) (List.mem_cons_self _ _)
        have hcnt' : s.count = l.length := hcnt
        have hsum' : s.total_amount = l.sum := hsum
        refine ⟨l ++ [amt], List.Sublist.append hsub (List.Sublist.refl _),
          ?_, ?_⟩
        · simp [Relationships.TStats.add, hcnt']
        · simp [Relationships.TStats.add, hsum']
      · obtain ⟨l, hsub, hcnt, hsum⟩ := hstats p (List.mem_cons_of_mem _ hmem)
        exact ⟨l, hsub.trans (List.sublist_append_left _ _), hcnt, hsum⟩
    · rw [if_neg hk] at hp
      rcases List.mem_cons.mp hp with rfl | hmem
      · obtain ⟨l, hsub, hcnt, hsum⟩ := hstats (k, s) (List.mem_cons_self _ _)
        exact ⟨l, hsub.trans (List.sublist_append_left _ _), hcnt, hsum⟩
      · exact ih (fun q' hq' => hstats q' (List.mem_cons_of_mem _ hq'))
          p hmem

theorem transferScan_invariant (va : List String) :
    ∀ (txs : List Relationships.TxRow) (oracle : List (ℚ × ℕ))
      (stats : List ((String × String) × Relationships.TStats)) (A : List ℚ),
      (∀ p ∈ stats, ∃ l : List ℚ, l.Sublist A ∧ p.2.count = l.length ∧
        p.2.total_amount = l.sum) →
      ∀ p ∈ Relationships.transferScan va txs oracle stats,
        ∃ l : List ℚ,
          l.Sublist (A ++ (txs.filter
            (fun tx => decide (eligibleTransfer va tx))).map
            Relationships.TxRow.amount) ∧
          p.2.count = l.length ∧ p.2.total_amount = l.sum := by
  intro txs
  induction txs with
  | nil =>
    intro oracle stats A hstats p hp
    simpa using hstats p hp
  | cons tx rest ih =>
    intro oracle stats A hstats p hp
    have hweak : ∀ q ∈ stats, ∃ l : List ℚ, l.Sublist (A ++ [tx.amount]) ∧
        q.2.count = l.length ∧ q.2.total_amount = l.sum := by
      intro q hq
      obtain ⟨l, hsub, hcnt, hsum⟩ := hstats q hq
      exact ⟨l, hsub.trans (List.sublist_append_left _ _), hcnt, hsum⟩
    by_cases he : eligibleTransfer va tx
    · have he' : tx.transaction_type = "Transfer" ∧ tx.status = "Completed" ∧
          tx.account_id ∈ va := he
      rw [List.filter_cons_of_pos (by simpa using he), List.map_cons,
        List.append_cons]
      simp only [Relationships.transferScan] at hp
      rw [if_pos he'] at hp
      by_cases hpt : va.filter (· ≠ tx.account_id) = []
      · rw [if_pos hpt] at hp
        exact ih oracle stats (A ++ [tx.amount]) hweak p hp
      · rw [if_neg hpt] at hp
        rcases oracle with - | ⟨⟨r, pick⟩, os⟩
        · exact ih [] stats (A ++ [tx.amount]) hweak p hp
        · dsimp only at hp
          by_cases hr : r < 1/10
          · rw [if_pos hr] at hp
            refine ih os _ (A ++ [tx.amount]) ?_ p hp
            exact updateStats_invariant _ tx.amount tx.transaction_date A
              stats hstats
          · rw [if_neg hr] at hp
            exact ih os stats (A ++ [tx.amount]) hweak p hp
    · have he' : ¬(tx.transaction_type = "Transfer" ∧ tx.status = "Completed" ∧
          tx.account_id ∈ va) := he
      rw [List.filter_cons_of_neg (by simpa using he)]
      simp only [Relationships.transferScan] at hp
      rw [if_neg he'] at hp
      exact ih oracle stats A hstats p hp

end Banking

namespace Banking

theorem sum_cent_multiples :
    ∀ l : List ℚ, (∀ x ∈ l, ∃ k : ℤ, x = (k : ℚ) / 100) →
      ∃ K : ℤ, l.sum = (K : ℚ) / 100 := by
  intro l
  induction l with
  | nil => exact fun _ => ⟨0, by simp⟩
  | cons x rest ih =>
    intro h
    obtain ⟨k, hk⟩ := h x (List.mem_cons_self _ _)
    obtain ⟨K, hK⟩ := ih (fun y hy => h y (List.mem_cons_of_mem _ hy))
    refine ⟨k + K, ?_⟩
    rw [List.sum_cons, hk, hK]
    push_cast
    ring

/-- C4: the transfer scan reacts exactly to the completed Transfer
transactions with a known account (filtering the rest away changes
nothing); every emitted TRANSFER_TO edge has `frequency ≥ 2`, and its
frequency and total are the length and the cent-rounded sum of the amounts
of a sub-list of the eligible transactions (the sampled ones); when every
transaction amount is a whole number of cents — as every generated amount
is — the total equals that sum exactly. -/
theorem c4_transfer_inference :
    ∀ (va : List String) (txs : List Relationships.TxRow)
      (oracle : List (ℚ × ℕ)),
      Relationships.transferScan va txs oracle [] =
        Relationships.transferScan va
          (txs.filter (fun tx => decide (eligibleTransfer va tx)))
          oracle [] ∧
      (∀ e ∈ Relationships.generate_transfer_relationships txs va oracle,
        2 ≤ e.frequency ∧
        ∃ l : List ℚ,
          l.Sublist ((txs.filter
            (fun tx => decide (eligibleTransfer va tx))).map
            Relationships.TxRow.amount) ∧
          e.frequency = l.length ∧ e.total_amount = round2 l.sum ∧
          ((∀ tx ∈ txs, ∃ k : ℤ, tx.amount = (k : ℚ) / 100) →
            e.total_amount = l.sum)) ∧
      ∀ p ∈ Relationships.transferScan va txs oracle [], 2 ≤ p.2.count →
        ∃ e ∈ Relationships.generate_transfer_relationships txs va oracle,
          e.source_id = p.1.1 ∧ e.target_id = p.1.2 ∧
          e.frequency = p.2.count ∧
          e.total_amount = round2 p.2.total_amount := by
  intro va txs oracle
  refine ⟨transferScan_filter_eligible va txs oracle [], ?_, ?_⟩
  swap
  · intro p hp hcnt
    have hqual : p ∈ (Relationships.transferScan va txs oracle []).filter
        (fun q => decide (2 ≤ q.2.count)) :=
      List.mem_filter.mpr ⟨hp, by simpa using hcnt⟩
    obtain ⟨n, hn⟩ := List.mem_iff_get.mp hqual
    have henum : (n.1, p) ∈ ((Relationships.transferScan va txs oracle
        []).filter (fun q => decide (2 ≤ q.2.count))).enum := by
      apply List.mem_enum_iff_getElem?.mpr
      simp [List.getElem?_eq_getElem, n.2, ← hn, List.get_eq_getElem]
    obtain ⟨key, s⟩ := p
    refine ⟨_, List.mem_map.mpr ⟨(n.1, key, s), henum, rfl⟩, rfl, rfl,
      rfl, rfl⟩
  intro e he
  unfold Relationships.generate_transfer_relationships at he
  obtain ⟨⟨i, key, s⟩, hmem, rfl⟩ := List.mem_map.mp he
  have hq : (key, s) ∈ (Relationships.transferScan va txs oracle []).filter
      (fun p => decide (2 ≤ p.2.count)) :=
    List.getElem?_mem (List.mem_enum_iff_getElem?.mp hmem)
  have hcnt2 : 2 ≤ s.count := by
    have := (List.mem_filter.mp hq).2
    simpa using this
  have hstat : (key, s) ∈ Relationships.transferScan va txs oracle [] :=
    (List.mem_filter.mp hq).1
  obtain ⟨l, hsub, hcount, hsum⟩ := transferScan_invariant va txs oracle []
    [] (by simp) _ hstat
  have hsub' : l.Sublist ((txs.filter
      (fun tx => decide (eligibleTransfer va tx))).map
      Relationships.TxRow.amount) := by simpa using hsub
  have hcount' : s.count = l.length := hcount
  have hsum' : s.total_amount = l.sum := hsum
  refine ⟨hcnt2, l, hsub', hcount', ?_, ?_⟩
  · show round2 s.total_amount = round2 l.sum
    rw [hsum']
  · intro hcents
    show round2 s.total_amount = l.sum
    have hl : ∀ x ∈ l, ∃ k : ℤ, x = (k : ℚ) / 100 := by
      intro x hx
      have hx' := hsub'.subset hx
      obtain ⟨tx, htx, rfl⟩ := List.mem_map.mp hx'
      exact hcents tx (List.mem_of_mem_filter htx)
    obtain ⟨K, hK⟩ := sum_cent_multiples l hl
    rw [hsum', hK, round2_cent]

end Banking

namespace Banking

theorem c4_scan_eval :
    Relationships.transferScan ["ACC-A", "ACC-B"] twoTransferTxs
        samplingOracle [] =
      [(("ACC-A", "ACC-B"),
        ⟨2, 0 + 10050/100 + 20025/100, some "2024-01-02",
          some "2024-01-05"⟩)] := by
  norm_num [Relationships.transferScan, twoTransferTxs, samplingOracle,
    Relationships.updateStats, Relationships.TStats.add,
    Relationships.TStats.empty, List.filter]
  simp +decide

end Banking

namespace Banking

theorem c4_gen_eval :
    Relationships.generate_transfer_relationships twoTransferTxs
        ["ACC-A", "ACC-B"] samplingOracle = [c4Edge] := by
  unfold Relationships.generate_transfer_relationships
  rw [c4_scan_eval]
  rfl

/-- Witness for `c4_transfer_inference`: the specification's edge-inference
scenario — two completed Transfer transactions from the same account, both
sampled toward the same target — yields one edge with frequency 2 whose
total is the sum of the two amounts. -/
theorem c4_transfer_inference_witness :
    (∀ tx ∈ twoTransferTxs, ∃ k : ℤ, tx.amount = (k : ℚ) / 100) ∧
    (2 ≤ c4Edge.frequency ∧
      ∃ l : List ℚ,
        l.Sublist ((twoTransferTxs.filter
          (fun tx => decide (eligibleTransfer ["ACC-A", "ACC-B"] tx))).map
          Relationships.TxRow.amount) ∧
        c4Edge.frequency = l.length ∧ c4Edge.total_amount = round2 l.sum ∧
        ((∀ tx ∈ twoTransferTxs, ∃ k : ℤ, tx.amount = (k : ℚ) / 100) →
          c4Edge.total_amount = l.sum)) := by
  have hcents : ∀ tx ∈ twoTransferTxs, ∃ k : ℤ, tx.amount = (k : ℚ) / 100 := by
    intro tx htx
    simp only [twoTransferTxs, List.mem_cons, List.mem_singleton,
      List.not_mem_nil, or_false] at htx
    rcases htx with rfl | rfl
    · exact ⟨10050, by norm_num⟩
    · exact ⟨20025, by norm_num⟩
  refine ⟨hcents, ?_⟩
  have hmem : c4Edge ∈ Relationships.generate_transfer_relationships
      twoTransferTxs ["ACC-A", "ACC-B"] samplingOracle := by
    rw [c4_gen_eval]
    exact List.mem_singleton_self _
  exact (c4_transfer_inference ["ACC-A", "ACC-B"] twoTransferTxs
    samplingOracle).2.1 c4Edge hmem

end Banking

namespace Banking

/-! ## C3: determinism and clock dependence -/

/-- C3 (amended): with the seed fixed (equal draw sequences) the generated
records depend on the clock only through the calendar day — two runs on the
same day, with the same seed and preset, produce identical records; the
date fields do change across days, so byte-identical output additionally
requires the two runs to execute on the same calendar date. -/
theorem c3_same_day_determinism :
    ∀ (t1 t2 cid : ℕ) (d : Customers.IndDraws) (cd : Customers.CorpDraws)
      (hd : Customers.HnwDraws) (daysAgo hh mi ss : ℕ),
      t1 / 86400 = t2 / 86400 →
      Customers.generate_individual_customer t1 cid d =
        Customers.generate_individual_customer t2 cid d ∧
      Customers.generate_corporate_customer t1 cid cd =
        Customers.generate_corporate_customer t2 cid cd ∧
      Customers.generate_hnw_customer t1 cid d hd =
        Customers.generate_hnw_customer t2 cid d hd ∧
      Transactions.generate_transaction_datetime t1 daysAgo hh mi ss =
        Transactions.generate_transaction_datetime t2 daysAgo hh mi ss := by
  intro t1 t2 cid d cd hd daysAgo hh mi ss hday
  refine ⟨?_, ?_, ?_, ?_⟩ <;>
    simp [Customers.generate_individual_customer,
      Customers.generate_corporate_customer, Customers.generate_hnw_customer,
      Transactions.generate_transaction_datetime, hday]

/-- C3 (counterexample): two runs with identical draws (same seed, same
preset) executed on different calendar days produce different customer
records — the run's date is an input the claim does not fix, so fixing the
seed and the preset alone does not make runs byte-identical. -/
theorem c3_different_day_differs :
    Customers.generate_individual_customer (86400 * 20000) 1
        verifiedIndDraws ≠
      Customers.generate_individual_customer (86400 * 20001) 1
        verifiedIndDraws := by
  intro hEq
  have h := congrArg Customers.Customer.member_since hEq
  have h1 : (Customers.generate_individual_customer (86400 * 20000) 1
      verifiedIndDraws).member_since = 19600 := rfl
  have h2 : (Customers.generate_individual_customer (86400 * 20001) 1
      verifiedIndDraws).member_since = 19601 := rfl
  rw [h1, h2] at h
  exact absurd h (by norm_num)

/-- Witness for `c3_same_day_determinism`: two clock readings one second
apart within the same day. -/
theorem c3_same_day_determinism_witness :
    (100000 : ℕ) / 86400 = (100001 : ℕ) / 86400 ∧
    (Customers.generate_individual_customer 100000 3 verifiedIndDraws =
        Customers.generate_individual_customer 100001 3 verifiedIndDraws ∧
      Customers.generate_corporate_customer 100000 3 verifiedCorpDraws =
        Customers.generate_corporate_customer 100001 3 verifiedCorpDraws ∧
      Customers.generate_hnw_customer 100000 3 verifiedIndDraws
          verifiedHnwDraws =
        Customers.generate_hnw_customer 100001 3 verifiedIndDraws
          verifiedHnwDraws ∧
      Transactions.generate_transaction_datetime 100000 5 12 30 0 =
        Transactions.generate_transaction_datetime 100001 5 12 30 0) :=
  ⟨by norm_num, c3_same_day_determinism 100000 100001 3 verifiedIndDraws
    verifiedCorpDraws verifiedHnwDraws 5 12 30 0 (by norm_num)⟩

end Banking
